import Mathlib

/-!
Verification of the GoDFS namenode (`src/namenode/namenode.go`).

The repository file contains two concatenated variants of the namenode.
The embedding below follows the first variant (the one with the `Err`
packet field, the `ERROR` command and the non-appending tree walk), which
is the variant the specification declares it follows.  Go maps are
modelled as association lists, the filesystem tree as an inductive tree
whose children lists may contain explicit nil placeholders (the Go code
creates nodes with `make([]*filenode, 1)`, i.e. a one-element slice
holding a nil pointer), and run-time panics are modelled as an explicit
outcome.  `HandlePacket` is wrapped in a `recover` in the Go code, so its
embedding returns a `panicked` flag together with the packets pushed to
`sendChannel`, the headers pushed to `headerChannel`, and the new state.
-/

namespace GoDFS

/-- Command codes, in declaration (iota) order of the first variant. -/
def HB : Nat := 0

def LIST : Nat := 1

def ACK : Nat := 2

def BLOCK : Nat := 3

def BLOCKACK : Nat := 4

def RETRIEVEBLOCK : Nat := 5

def DISTRIBUTE : Nat := 6

def GETHEADERS : Nat := 7

def ERROR : Nat := 8

/-- 2^64: Go `uint64` arithmetic wraps at this modulus. -/
def UINT64MOD : Nat := 18446744073709551616

/-- `BlockHeader` from the source: Go `uint64` sizes become `Nat`
(taken mod 2^64 where they are added), Go `int` block indices become `Int`. -/
structure BlockHeader where
  DatanodeID : String
  Filename : String
  Size : Nat
  BlockNum : Int
  NumBlocks : Int
deriving DecidableEq, Repr

/-- `Block` from the source; payload bytes are abstract naturals. -/
structure Block where
  Header : BlockHeader
  Data : List Nat
deriving DecidableEq, Repr

/-- `Packet` of the first variant (with the `Err` field).  A nil Go slice
and an empty slice are observationally identical everywhere in this code
(length tests and index panics), so `Headers` is a plain list. -/
structure Packet where
  SRC : String
  DST : String
  CMD : Nat
  Err : String
  Data : Block
  Headers : List BlockHeader
deriving DecidableEq, Repr

/-- `datanode` record (the connection handle is not modelled). -/
structure Datanode where
  ID : String
  listed : Bool
  size : Nat
deriving DecidableEq, Repr

/-- Go maps as association lists (insertion order; Go iteration order is
only consumed by the random placement chooser, which is parametrised). -/
abbrev Map (α β : Type) : Type := List (α × β)

def mapFind {α β : Type} [DecidableEq α] : Map α β → α → Option β
  | [], _ => none
  | (k, v) :: rest, k' => if k = k' then some v else mapFind rest k'

def mapInsert {α β : Type} [DecidableEq α] : Map α β → α → β → Map α β
  | [], k, v => [(k, v)]
  | (k0, v0) :: rest, k, v =>
      if k0 = k then (k, v) :: rest else (k0, v0) :: mapInsert rest k v

/-- `ContainsHeader` from the source. -/
def ContainsHeader (arr : List BlockHeader) (h : BlockHeader) : Bool :=
  match arr with
  | [] => false
  | v :: rest => if h = v then true else ContainsHeader rest h

/-- The filesystem tree.  `nilSlot` models a nil `*filenode` entry inside a
children slice: the Go code creates every non-root node with
`make([]*filenode, 1)`, a slice holding one nil pointer.  (Parent pointers
are written but never read by the walk, so they are not modelled.) -/
inductive Filenode : Type where
  | nilSlot : Filenode
  | node (path : String) (children : List Filenode) : Filenode

/-- filename → blockNum → headers, as in the `filemap` of the source. -/
abbrev Filemap : Type := Map String (Map Int (List BlockHeader))

/-- Mutable namenode state touched by the embedded functions
(the send map of encoders is I/O and is not modelled). -/
structure NNState where
  root : Filenode
  filemap : Filemap
  datanodemap : Map String Datanode
  clientMap : Map BlockHeader String

/-- Outcome of a `MergeNode` call: Go `nil` error, a Go `error` value, or a
run-time panic (`MergeNode` of the first variant has no `recover`, so a
panic there propagates out of the merger goroutine). -/
inductive MOut : Type where
  | ok : MOut
  | err (msg : String) : MOut
  | panicked : MOut
deriving DecidableEq, Repr

/-- Scanning a children slice for a path, as the inner walk loop
`for _, v := range q.children` does: dereferencing a nil entry
panics before any comparison. -/
inductive FindRes : Type where
  | panicked : FindRes
  | notFound : FindRes
  | found (pre : List Filenode) (cpath : String) (ccs : List Filenode)
      (post : List Filenode) : FindRes

def findChild (want : String) : List Filenode → FindRes
  | [] => .notFound
  | .nilSlot :: _ => .panicked
  | .node p cs :: rest =>
      if p = want then .found [] p cs rest
      else
        match findChild want rest with
        | .found pre cp ccs post => .found (.node p cs :: pre) cp ccs post
        | r => r

/-- The `exists && partial == path` branch of `MergeNode`: update the
filemap for an already-present file node.  Returns `none` for the
"Attempted to add to filenode that does not exist!" error.  Note the
`dn.size += h.Size` in the source sits after the if/else, outside the
duplicate check, so the size is added on every successful visit. -/
def mergeFile (h : BlockHeader) (path : String) (fm : Filemap) (sz : Nat) :
    Option (Filemap × Nat) :=
  match mapFind fm path with
  | none => none
  | some blks =>
      let fm2 :=
        match mapFind blks h.BlockNum with
        | none => mapInsert fm path (mapInsert blks h.BlockNum [h])
        | some arr =>
            if ContainsHeader arr h then fm
            else mapInsert fm path (mapInsert blks h.BlockNum (arr ++ [h]))
      some (fm2, (sz + h.Size) % UINT64MOD)

/-- Result of walking one node of the tree: outcome, the updated children
of the current node, the filemap, and the size accumulator of the datanode. -/
structure WalkRes where
  out : MOut
  cs : List Filenode
  fm : Filemap
  sz : Nat

/-- The `for i := range path_arr` walk of `MergeNode`, recursing over the
list of joined path steps (`strings.Join(path_arr[0:i+1], "/")` for
`i = 1 .. n-1`).  New nodes are created with a `[nilSlot]` children slice,
exactly as `make([]*filenode, 1)` does in the source. -/
def mergeWalk (h : BlockHeader) (path : String) :
    List String → List Filenode → Filemap → Nat → WalkRes
  | [], cs, fm, sz => ⟨.ok, cs, fm, sz⟩
  | step :: rest, cs, fm, sz =>
      match findChild step cs with
      | .panicked => ⟨.panicked, cs, fm, sz⟩
      | .found pre cp ccs post =>
          if step = path then
            match mergeFile h path fm sz with
            | none =>
                ⟨.err "Attempted to add to filenode that does not exist!",
                 pre ++ .node cp ccs :: post, fm, sz⟩
            | some (fm2, sz2) =>
                let r := mergeWalk h path rest ccs fm2 sz2
                ⟨r.out, pre ++ .node cp r.cs :: post, r.fm, r.sz⟩
          else
            let r := mergeWalk h path rest ccs fm sz
            ⟨r.out, pre ++ .node cp r.cs :: post, r.fm, r.sz⟩
      | .notFound =>
          let fmsz :=
            if step = path then
              (mapInsert fm step (mapInsert ([] : Map Int (List BlockHeader))
                  h.BlockNum [h]),
               (sz + h.Size) % UINT64MOD)
            else (fm, sz)
          let r := mergeWalk h path rest [Filenode.nilSlot] fmsz.1 fmsz.2
          ⟨r.out, cs ++ [.node step r.cs], r.fm, r.sz⟩

/-- `strings.Split(s, "/")` on the character list of `s`. -/
def splitOnSlash : List Char → List (List Char)
  | [] => [[]]
  | c :: rest =>
      let r := splitOnSlash rest
      if c = '/' then [] :: r
      else
        match r with
        | [] => [[c]]
        | y :: ys => (c :: y) :: ys

def splitSlash (s : String) : List String :=
  (splitOnSlash s.data).map (fun cs => String.mk cs)

/-- `strings.Join(arr, "/")`. -/
def joinSlash : List String → String
  | [] => ""
  | [x] => x
  | x :: y :: ys => x ++ "/" ++ joinSlash (y :: ys)

/-- The joined path steps visited by the walk: for `path_arr` of length
`n`, the strings `strings.Join(path_arr[0:i+1], "/")` for `i = 1 .. n-1`
(index 0 is skipped by the loop). -/
def pathSteps (parts : List String) : List String :=
  ((List.range parts.length).drop 1).map (fun i => joinSlash (parts.take (i + 1)))

/-- `MergeNode` of the first variant.  Rejections return the Go error
messages verbatim; note the validation accepts `NumBlocks = BlockNum`
because the source tests `h.NumBlocks < h.BlockNum`.  The datanode
`size` is written back even on a mid-walk abort, since the Go code
mutates `dn.size` through a pointer as it goes. -/
def MergeNode (h : BlockHeader) (s : NNState) : MOut × NNState :=
  if h.DatanodeID = "" ∨ h.Filename = "" ∨ h.Size < 0 ∨ h.BlockNum < 0 ∨
      h.NumBlocks < h.BlockNum then
    (.err "Invalid header input", s)
  else
    match mapFind s.datanodemap h.DatanodeID with
    | none =>
        (.err ("BlockHeader DatanodeID: " ++ h.DatanodeID ++
          " does not exist in map"), s)
    | some dn =>
        match s.root with
        | .nilSlot => (.panicked, s)
        | .node rootPath rootCs =>
            let steps := pathSteps (splitSlash h.Filename)
            let r := mergeWalk h h.Filename steps rootCs s.filemap dn.size
            (r.out,
             { s with
                root := .node rootPath r.cs
                filemap := r.fm
                datanodemap :=
                  mapInsert s.datanodemap h.DatanodeID ⟨dn.ID, dn.listed, r.sz⟩ })

/-- `DistributeBlock` of the first variant.  The `rand.Intn` draw is
parametrised by `pick`; the function returns the BLOCK packets pushed to
`sendChannel` (none when no datanode is registered) and never mutates
namenode state. -/
def DistributeBlock (pick : Nat) (b : Block) (s : NNState) : List Packet :=
  if s.datanodemap.length < 1 then []
  else
    let nodeIDs := s.datanodemap.map (fun kv => kv.2.ID)
    let dst := nodeIDs.getD (pick % nodeIDs.length) ""
    [⟨"NN", dst, BLOCK, "",
      ⟨{ b.Header with DatanodeID := dst }, b.Data⟩, []⟩]

/-- Everything observable from one `HandlePacket` call: the packets pushed
to `sendChannel` in order, the headers pushed to `headerChannel` in order,
the state afterwards, and whether a panic was recovered (in which case the
packet is dropped without a reply; `HandlePacket` itself never crashes the
process because of its deferred `recover`). -/
structure HPOut where
  sent : List Packet
  enq : List BlockHeader
  state : NNState
  panicked : Bool

def emptyHeader : BlockHeader := ⟨"", "", 0, 0, 0⟩

def emptyBlock : Block := ⟨emptyHeader, []⟩

/-- Loop of the GETHEADERS build: `headers[i] = blockMap[i][0]` for
`i = 0 .. n-1`; a missing inner entry yields a nil slice and indexing it
panics, as does an entry that is present but empty. -/
def collectFirsts (bm : Map Int (List BlockHeader)) : List Nat →
    Option (List BlockHeader)
  | [] => some []
  | i :: is =>
      match mapFind bm (Int.ofNat i) with
      | none => none
      | some [] => none
      | some (h0 :: _) =>
          match collectFirsts bm is with
          | none => none
          | some t => some (h0 :: t)

/-- Client-side switch of `HandlePacket` (`p.SRC == "C"`).  `id` is `"NN"`
after `Init`.  The default reply template is
`Packet{id, p.SRC, ACK, "", Block{}, []}`; commands without a case fall
through to sending it unchanged. -/
def handleClient (pick : Nat) (p : Packet) (s : NNState) : HPOut :=
  let r0 : Packet := ⟨"NN", p.SRC, ACK, "", emptyBlock, []⟩
  if p.CMD = HB then ⟨[], [], s, false⟩
  else if p.CMD = DISTRIBUTE then
    ⟨DistributeBlock pick p.Data s ++ [r0], [], s, false⟩
  else if p.CMD = RETRIEVEBLOCK then
    match p.Headers with
    | [h] =>
        ⟨[{ r0 with
              DST := h.DatanodeID
              CMD := RETRIEVEBLOCK
              Headers := p.Headers }], [],
         { s with clientMap := mapInsert s.clientMap h p.SRC }, false⟩
    | _ =>
        ⟨[{ r0 with CMD := ERROR, Err := "Invalid Header received" }], [],
         s, false⟩
  else if p.CMD = GETHEADERS then
    match p.Headers with
    | [h] =>
        let fname := h.Filename
        match mapFind s.filemap fname with
        | none =>
            ⟨[{ r0 with CMD := ERROR, Err := "File not found " ++ fname }],
             [], s, false⟩
        | some blockMap =>
            match mapFind blockMap 0 with
            | none =>
                ⟨[{ r0 with
                      CMD := ERROR
                      Err := "Could not locate first block in file" }],
                 [], s, false⟩
            | some [] => ⟨[], [], s, true⟩
            | some (h0 :: _) =>
                if h0.NumBlocks < 0 then ⟨[], [], s, true⟩
                else
                  match collectFirsts blockMap (List.range h0.NumBlocks.toNat) with
                  | none => ⟨[], [], s, true⟩
                  | some hs =>
                      ⟨[{ r0 with CMD := GETHEADERS, Headers := hs }], [],
                       s, false⟩
    | _ =>
        ⟨[{ r0 with CMD := ERROR, Err := "Invalid Header received" }], [],
         s, false⟩
  else ⟨[r0], [], s, false⟩

/-- Datanode-side switch of `HandlePacket`.  An unregistered source gives
`dn = nil` and the immediate `dn.listed` read panics (recovered, packet
dropped).  In the BLOCKACK case the log statement reads `p.Headers[0]`
after the length guard, so an empty headers list panics there. -/
def handleDatanode (p : Packet) (s : NNState) : HPOut :=
  let r0 : Packet := ⟨"NN", p.SRC, ACK, "", emptyBlock, []⟩
  match mapFind s.datanodemap p.SRC with
  | none => ⟨[], [], s, true⟩
  | some dn =>
      if p.CMD = HB then
        ⟨[{ r0 with CMD := if dn.listed then ACK else LIST }], [], s, false⟩
      else if p.CMD = LIST then
        ⟨[r0], p.Headers,
         { s with datanodemap :=
            mapInsert s.datanodemap p.SRC ⟨dn.ID, true, dn.size⟩ }, false⟩
      else if p.CMD = BLOCKACK then
        match p.Headers with
        | [] => ⟨[], [], s, true⟩
        | [h] => ⟨[r0], [h], s, false⟩
        | _ => ⟨[r0], [], s, false⟩
      else if p.CMD = BLOCK then
        ⟨[{ r0 with DST := "C", CMD := BLOCK, Data := p.Data }], [], s, false⟩
      else ⟨[r0], [], s, false⟩

/-- `HandlePacket` of the first variant. -/
def HandlePacket (pick : Nat) (p : Packet) (s : NNState) : HPOut :=
  if p.SRC = "" then ⟨[], [], s, false⟩
  else if p.SRC = "C" then handleClient pick p s
  else handleDatanode p s

/-- State after `Init`: root node `"/"` with an empty children slice
(`make([]*filenode, 0, 5)`), all maps empty. -/
def initState : NNState :=
  { root := .node "/" []
    filemap := []
    datanodemap := []
    clientMap := [] }

/-- The state after datanode `"D1"` has connected
(`CheckConnection` adds `datanode{p.SRC, false, 0}`). -/
def sD1 : NNState :=
  { initState with datanodemap := [("D1", ⟨"D1", false, 0⟩)] }

/-- Size of a registered datanode, if any. -/
def dnSize (s : NNState) (d : String) : Option Nat :=
  (mapFind s.datanodemap d).map (fun dn => dn.size)

/-! ## Claim theorems -/

/-- C7: for every GETHEADERS request from the client with exactly one
header whose filename is not a key of `filemap`, the dispatcher replies
with an ERROR packet whose err field is "File not found " followed by the
requested path, and the namespace state is unchanged (no enqueue, no
panic, exactly that one reply). -/
theorem handlePacket_getheaders_miss (pick : Nat) (s : NNState) (p : Packet)
    (hdr : BlockHeader) (h1 : p.SRC = "C") (h2 : p.CMD = GETHEADERS)
    (h3 : p.Headers = [hdr]) (h4 : mapFind s.filemap hdr.Filename = none) :
    HandlePacket pick p s =
      ⟨[⟨"NN", "C", ERROR, "File not found " ++ hdr.Filename, emptyBlock, []⟩],
       [], s, false⟩ := by
  simp [HandlePacket, handleClient, h1, h2, h3, h4, GETHEADERS, HB, DISTRIBUTE,
    RETRIEVEBLOCK]

/-- C7 witness: the spec scenario S3, a GETHEADERS request for `/nope`
against the initial state. -/
theorem handlePacket_getheaders_miss_witness :
    HandlePacket 0 ⟨"C", "NN", GETHEADERS, "", emptyBlock, [⟨"", "/nope", 0, 0, 0⟩]⟩
        initState =
      ⟨[⟨"NN", "C", ERROR, "File not found " ++ "/nope", emptyBlock, []⟩], [],
       initState, false⟩ :=
  handlePacket_getheaders_miss 0 initState
    ⟨"C", "NN", GETHEADERS, "", emptyBlock, [⟨"", "/nope", 0, 0, 0⟩]⟩
    ⟨"", "/nope", 0, 0, 0⟩ rfl rfl rfl rfl

/-- C8: a RETRIEVEBLOCK packet from the client with exactly one header
`hdr` records `clientMap[hdr] = "C"` and emits exactly one outbound packet
`{src = NN, dst = hdr.DatanodeID, cmd = RETRIEVEBLOCK, headers = p.Headers}`;
with a header count other than one the state (hence `clientMap`) is
unchanged and the only outbound packet is an ERROR reply to the client,
so nothing is forwarded to a datanode. -/
theorem handlePacket_retrieveblock (pick : Nat) (s : NNState) (p : Packet)
    (h1 : p.SRC = "C") (h2 : p.CMD = RETRIEVEBLOCK) :
    (∀ hdr : BlockHeader, p.Headers = [hdr] →
      HandlePacket pick p s =
        ⟨[⟨"NN", hdr.DatanodeID, RETRIEVEBLOCK, "", emptyBlock, [hdr]⟩], [],
         { s with clientMap := mapInsert s.clientMap hdr "C" }, false⟩)
    ∧ (p.Headers.length ≠ 1 →
      (HandlePacket pick p s).state = s ∧
      (HandlePacket pick p s).sent =
        [⟨"NN", "C", ERROR, "Invalid Header received", emptyBlock, []⟩]) := by
  constructor
  · intro hdr h3
    simp [HandlePacket, handleClient, h1, h2, h3, RETRIEVEBLOCK, HB, DISTRIBUTE]
  · intro h3
    match hh : p.Headers with
    | [] =>
        constructor <;>
          simp [HandlePacket, handleClient, h1, h2, hh, RETRIEVEBLOCK, HB, DISTRIBUTE]
    | [x] => exact absurd (by rw [hh]; rfl) h3
    | x :: y :: t =>
        constructor <;>
          simp [HandlePacket, handleClient, h1, h2, hh, RETRIEVEBLOCK, HB, DISTRIBUTE]

/-- C8 witness: the spec scenario S5 header, forwarded to D1 and recorded
in the client map. -/
theorem handlePacket_retrieveblock_witness :
    HandlePacket 0 ⟨"C", "NN", RETRIEVEBLOCK, "", emptyBlock,
        [⟨"D1", "/a/b", 500, 0, 2⟩]⟩ initState =
      ⟨[⟨"NN", "D1", RETRIEVEBLOCK, "", emptyBlock, [⟨"D1", "/a/b", 500, 0, 2⟩]⟩],
       [], { initState with
              clientMap := mapInsert initState.clientMap ⟨"D1", "/a/b", 500, 0, 2⟩ "C" },
       false⟩ :=
  (handlePacket_retrieveblock 0 initState
      ⟨"C", "NN", RETRIEVEBLOCK, "", emptyBlock, [⟨"D1", "/a/b", 500, 0, 2⟩]⟩
      rfl rfl).1 ⟨"D1", "/a/b", 500, 0, 2⟩ rfl

/-- C9: a DISTRIBUTE packet from the client when zero datanodes are
registered gets exactly one ACK reply to the client, no BLOCK packet is
emitted, nothing is enqueued, and the state is unchanged. -/
theorem handlePacket_distribute_empty (pick : Nat) (s : NNState) (p : Packet)
    (h1 : p.SRC = "C") (h2 : p.CMD = DISTRIBUTE) (h3 : s.datanodemap = []) :
    HandlePacket pick p s =
      ⟨[⟨"NN", "C", ACK, "", emptyBlock, []⟩], [], s, false⟩ := by
  simp [HandlePacket, handleClient, DistributeBlock, h1, h2, h3, HB, DISTRIBUTE]

/-- C9 witness: the spec scenario S4, DISTRIBUTE before any datanode has
connected. -/
theorem handlePacket_distribute_empty_witness :
    HandlePacket 0 ⟨"C", "NN", DISTRIBUTE, "",
        ⟨⟨"D1", "/a/b", 500, 0, 2⟩, [1, 2]⟩, []⟩ initState =
      ⟨[⟨"NN", "C", ACK, "", emptyBlock, []⟩], [], initState, false⟩ :=
  handlePacket_distribute_empty 0 initState
    ⟨"C", "NN", DISTRIBUTE, "", ⟨⟨"D1", "/a/b", 500, 0, 2⟩, [1, 2]⟩, []⟩
    rfl rfl rfl

/-- C10: a packet whose src is non-empty, not "C" and not a key of
`datanodemap` makes `HandlePacket` read `dn.listed` through a nil pointer;
the panic is recovered at the deferred handler (the process does not
crash), no reply is sent, nothing is enqueued, and the state is
unchanged. -/
theorem handlePacket_unknown_datanode (pick : Nat) (s : NNState) (p : Packet)
    (h1 : p.SRC ≠ "") (h2 : p.SRC ≠ "C")
    (h3 : mapFind s.datanodemap p.SRC = none) :
    HandlePacket pick p s = ⟨[], [], s, true⟩ := by
  simp [HandlePacket, handleDatanode, h1, h2, h3]

/-- C10 witness: a heartbeat from the unregistered datanode id D9. -/
theorem handlePacket_unknown_datanode_witness :
    HandlePacket 0 ⟨"D9", "NN", HB, "", emptyBlock, []⟩ initState =
      ⟨[], [], initState, true⟩ :=
  handlePacket_unknown_datanode 0 initState ⟨"D9", "NN", HB, "", emptyBlock, []⟩
    (by decide) (by decide) rfl

/-- C4 counterexample: a client packet with command LIST (unhandled for
the client class) does get an outbound reply: the default ACK packet.
The claim that no outbound reply is produced is false. -/
theorem client_list_packet_gets_ack_reply :
    (HandlePacket 0 ⟨"C", "NN", LIST, "", emptyBlock, []⟩ sD1).sent =
      [⟨"NN", "C", ACK, "", emptyBlock, []⟩] ∧
    (HandlePacket 0 ⟨"C", "NN", LIST, "", emptyBlock, []⟩ sD1).sent ≠ [] := by
  decide

/-- C4 amended: for every packet whose command is not one handled for its
peer class (client: not HB, DISTRIBUTE, RETRIEVEBLOCK, GETHEADERS;
registered datanode: not HB, LIST, BLOCKACK, BLOCK), `HandlePacket` does
not crash and emits exactly one outbound packet, the untouched default
ACK reply to the source, with no state change and no enqueue. -/
theorem handlePacket_unhandled_default_ack (pick : Nat) (s : NNState) (p : Packet)
    (hcase :
      (p.SRC = "C" ∧ p.CMD ≠ HB ∧ p.CMD ≠ DISTRIBUTE ∧ p.CMD ≠ RETRIEVEBLOCK ∧
        p.CMD ≠ GETHEADERS)
      ∨ (p.SRC ≠ "" ∧ p.SRC ≠ "C" ∧ (mapFind s.datanodemap p.SRC).isSome ∧
        p.CMD ≠ HB ∧ p.CMD ≠ LIST ∧ p.CMD ≠ BLOCKACK ∧ p.CMD ≠ BLOCK)) :
    HandlePacket pick p s =
      ⟨[⟨"NN", p.SRC, ACK, "", emptyBlock, []⟩], [], s, false⟩ := by
  rcases hcase with ⟨h1, h2, h3, h4, h5⟩ | ⟨h1, h2, hdn, h3, h4, h5, h6⟩
  · simp [HandlePacket, handleClient, h1, h2, h3, h4, h5]
  · obtain ⟨dn, hdn⟩ := Option.isSome_iff_exists.mp hdn
    simp [HandlePacket, handleDatanode, h1, h2, hdn, h3, h4, h5, h6]

/-- C4 witness: an ERROR-command packet from the client (no client case
handles it) gets the default ACK reply. -/
theorem handlePacket_unhandled_default_ack_witness :
    HandlePacket 0 ⟨"C", "NN", 8, "", emptyBlock, []⟩ sD1 =
      ⟨[⟨"NN", "C", ACK, "", emptyBlock, []⟩], [], sD1, false⟩ :=
  handlePacket_unhandled_default_ack 0 sD1 ⟨"C", "NN", 8, "", emptyBlock, []⟩
    (Or.inl ⟨rfl, by decide, by decide, by decide, by decide⟩)

def hC1 : BlockHeader := ⟨"D1", "/f", 500, 0, 1⟩

/-- C1: merging the same header twice keeps the single deduplicated entry
at `filemap[/f][0]` (length 1), but `datanodemap[D1].size` is increased by
`h.Size` on each merge: 500 after one merge, 1000 after two.  The
namespace is therefore NOT the same as after a single merge: the duplicate
is double-counted, because the source adds `dn.size += h.Size` outside the
`ContainsHeader` guard. -/
theorem mergeNode_duplicate_merge_double_counts_size :
    (MergeNode hC1 sD1).1 = .ok ∧
    (MergeNode hC1 (MergeNode hC1 sD1).2).1 = .ok ∧
    (mapFind (MergeNode hC1 (MergeNode hC1 sD1).2).2.filemap "/f").bind
        (fun bm => mapFind bm 0) = some [hC1] ∧
    dnSize (MergeNode hC1 sD1).2 "D1" = some 500 ∧
    dnSize (MergeNode hC1 (MergeNode hC1 sD1).2).2 "D1" = some 1000 := by
  decide

/-- C2: the validation of `MergeNode` accepts `blockNum = numBlocks - 1`
(here 1 of 2) as the claim states, but it also accepts
`blockNum = numBlocks` (here 2 of 2) and stores the header, because the
source tests `h.NumBlocks < h.BlockNum` instead of `<=`; only
`blockNum > numBlocks` (here 3 of 2) is rejected. -/
theorem mergeNode_accepts_blockNum_eq_numBlocks :
    (MergeNode ⟨"D1", "/f", 500, 1, 2⟩ sD1).1 = .ok ∧
    (MergeNode ⟨"D1", "/f", 500, 2, 2⟩ sD1).1 = .ok ∧
    (mapFind (MergeNode ⟨"D1", "/f", 500, 2, 2⟩ sD1).2.filemap "/f").bind
        (fun bm => mapFind bm 2) = some [⟨"D1", "/f", 500, 2, 2⟩] ∧
    (MergeNode ⟨"D1", "/f", 500, 3, 2⟩ sD1).1 = .err "Invalid header input" := by
  decide

def hC3 : BlockHeader := ⟨"D1", "/g", 500, 0, 2⟩

def sC3 : NNState := (MergeNode hC3 sD1).2

def pC3 : Packet := ⟨"C", "NN", GETHEADERS, "", emptyBlock, [⟨"", "/g", 0, 0, 0⟩]⟩

/-- C3: a GETHEADERS request for `/g` in a state where `filemap[/g]`
exists but holds only block 0 of a 2-block file: the build loop reads the
missing inner entry for block 1 (a nil slice), panics, and the recovered
panic drops the request with NO reply at all; the dispatcher does not
reply ERROR as the claim requires. -/
theorem getheaders_missing_inner_entry_dropped :
    (mapFind sC3.filemap "/g").isSome = true ∧
    (HandlePacket 0 pC3 sC3).sent = [] ∧
    (HandlePacket 0 pC3 sC3).panicked = true ∧
    (HandlePacket 0 pC3 sC3).enq = [] := by
  decide

def pC5 : Packet := ⟨"D1", "NN", BLOCKACK, "", emptyBlock, []⟩

/-- C5: a BLOCKACK from the registered datanode D1 with an EMPTY headers
list does not yield an ACK: the log statement reads `p.Headers[0]` after
the length guard, panics, and the packet is dropped with no reply (first
conjuncts).  With exactly one header the code does reply ACK and enqueue
it, and with two headers it replies ACK without enqueueing (remaining
conjuncts), so only the empty case diverges from the claim. -/
theorem blockack_empty_headers_panics_no_ack :
    (HandlePacket 0 pC5 sD1).sent = [] ∧
    (HandlePacket 0 pC5 sD1).panicked = true ∧
    (HandlePacket 0 pC5 sD1).enq = [] ∧
    (HandlePacket 0 ⟨"D1", "NN", BLOCKACK, "", emptyBlock, [hC1]⟩ sD1).sent =
      [⟨"NN", "D1", ACK, "", emptyBlock, []⟩] ∧
    (HandlePacket 0 ⟨"D1", "NN", BLOCKACK, "", emptyBlock, [hC1]⟩ sD1).enq = [hC1] ∧
    (HandlePacket 0 ⟨"D1", "NN", BLOCKACK, "", emptyBlock, [hC1, hC3]⟩ sD1).sent =
      [⟨"NN", "D1", ACK, "", emptyBlock, []⟩] ∧
    (HandlePacket 0 ⟨"D1", "NN", BLOCKACK, "", emptyBlock, [hC1, hC3]⟩ sD1).enq = [] := by
  decide

def hC6 : BlockHeader := ⟨"D1", "/a/b", 500, 0, 2⟩

def sC6 : NNState := (MergeNode hC6 sD1).2

/-- C6: merging a valid header for `/a/b` panics instead of storing it.
The first merge creates directory node `/a` with the `make([]*filenode, 1)`
children slice, whose nil entry the next step dereferences; merging again
when `/a` already exists in the tree (state `sC6`) panics the same way, so
the walk never reaches the leaf equality and `filemap[/a/b]` is never
created nor any size counted. -/
theorem mergeNode_nested_path_panics_never_stores :
    (MergeNode hC6 sD1).1 = .panicked ∧
    (MergeNode hC6 sC6).1 = .panicked ∧
    mapFind (MergeNode hC6 sC6).2.filemap "/a/b" = none ∧
    dnSize (MergeNode hC6 sC6).2 "D1" = some 0 := by
  decide

end GoDFS
